import Mathlib

/-!
Shallow embedding of the revenue classifier from
src/classifier/revenue_classifier.py, together with theorems checking the
natural-language specification of the repository against the code.

Modelling conventions:
- Python strings are Lean strings; the Python substring test a in b is
  modelled on the underlying character lists; str.upper is modelled as
  per-character uppercasing (strUpper below) using core Char.toUpper.
- A compiled regular expression (re.compile with re.IGNORECASE) is modelled
  as its induced match predicate, Matcher := String → Bool.  Regular
  expression compilation itself (which may raise re.error on a malformed
  pattern) is modelled by an abstract parameter compile : String → Option
  Matcher, none standing for re.error.
- Python dicts are association lists iterated in insertion order; assigning
  to an existing key overwrites the value in place (dictInsert below).
- The monetary amount, a Python float carrying dollar values, is modelled
  as a rational number.
- Exceptions escaping a call are modelled with Except.
-/

namespace TransactionClassifier

/-- Classification of transaction revenue type (enum RevenueType). -/
inductive RevenueType where
  | true_revenue
  | non_true_revenue
  | outlier
  | mca_payment
  | needs_review
deriving DecidableEq, Repr

/-- Classification of wire transfer types (enum WireType). -/
inductive WireType where
  | wire_transfer
  | fed_wire
  | chips_credit
  | book_transfer
  | foreign_remittance
  | unknown
deriving DecidableEq, Repr

/-- Type of bank transaction (enum TransactionType). -/
inductive TransactionType where
  | deposit
  | withdrawal
  | transfer
  | wire
  | ach
  | check
  | card
  | fee
deriving DecidableEq, Repr

/-- Base transaction (dataclass Transaction).  The calendar date is modelled
as an integer day number; nothing in the classifier reads it. -/
structure Transaction where
  date : Int
  description : String
  amount : Rat
  transaction_type : TransactionType := TransactionType.ach
  raw_text : String := ""
deriving DecidableEq, Repr

/-- Transaction with classification metadata (dataclass ClassifiedTransaction). -/
structure ClassifiedTransaction extends Transaction where
  revenue_type : RevenueType := RevenueType.needs_review
  mca_match : Option String := none
  wire_type : Option WireType := none
  flags : List String := []
deriving DecidableEq, Repr

/-- The match predicate induced by a compiled case-insensitive regular
expression: does the pattern match anywhere in the given string? -/
abbrev Matcher := String → Bool

/-- Containment of one character list in another: does the needle occur as
a contiguous run of the haystack?  The empty needle occurs everywhere. -/
def charsContain (haystack needle : List Char) : Bool :=
  needle.isPrefixOf haystack ||
    match haystack with
    | [] => false
    | _ :: rest => charsContain rest needle

/-- Python substring containment needle in haystack, on character lists. -/
def strContains (haystack needle : String) : Bool :=
  charsContain haystack.data needle.data

/-- Python str.upper, modelled as per-character uppercasing. -/
def strUpper (s : String) : String :=
  ⟨s.data.map Char.toUpper⟩

/-- Python truthiness of an Optional[str] value: None and the empty string
are falsy, every other string is truthy. -/
def optStrTruthy : Option String → Bool
  | none => false
  | some s => !s.isEmpty

/-- Exceptions the pattern-handling code can raise: re.error from
re.compile or re.search on a malformed pattern, ValueError from the
WireType constructor on an unknown subtype name.  The source defines no
dedicated configuration-error class. -/
inductive LoadError where
  | regexError (pattern : String)
  | valueError (name : String)
deriving DecidableEq, Repr

/-- State of a RevenueClassifier after _load_patterns has succeeded.  The
five revenue-rule lists hold compiled matchers (the source compiles them in
_load_patterns); the wire table maps raw pattern strings to wire types (the
source never compiles these — _classify_wire passes the raw string to
re.search at classification time). -/
structure PatternStore where
  aka_to_mca : List (String × String)
  true_revenue_patterns : List Matcher
  non_true_revenue_patterns : List Matcher
  treasury_true_patterns : List Matcher
  treasury_false_patterns : List Matcher
  p2p_patterns : List Matcher
  wire_patterns : List (String × WireType)

/-- RevenueClassifier._lookup_mca: first alias of the reverse index that
occurs in the uppercased description wins; returns its canonical name. -/
def lookup_mca (store : PatternStore) (description : String) : Option String :=
  let desc_upper := strUpper description
  store.aka_to_mca.findSome? fun p =>
    if strContains desc_upper p.1 then some p.2 else none

/-- Scan of the wire table done by RevenueClassifier._classify_wire: for
each entry in order, compile the raw pattern (re.search raises re.error on
a malformed one) and return the wire type of the first match. -/
def wire_search (compile : String → Option Matcher) :
    List (String × WireType) → String → Except LoadError (Option WireType)
  | [], _ => Except.ok none
  | (pattern, wt) :: rest, description =>
    match compile pattern with
    | none => Except.error (LoadError.regexError pattern)
    | some m =>
      if m description then Except.ok (some wt)
      else wire_search compile rest description

/-- RevenueClassifier._classify_wire. -/
def classify_wire (compile : String → Option Matcher) (store : PatternStore)
    (description : String) : Except LoadError (Option WireType) :=
  wire_search compile store.wire_patterns description

/-- RevenueClassifier._is_p2p. -/
def is_p2p (store : PatternStore) (description : String) : Bool :=
  store.p2p_patterns.any fun p => p description

/-- RevenueClassifier._is_treasury_true. -/
def is_treasury_true (store : PatternStore) (description : String) : Bool :=
  store.treasury_true_patterns.any fun p => p description

/-- RevenueClassifier._is_treasury_false. -/
def is_treasury_false (store : PatternStore) (description : String) : Bool :=
  store.treasury_false_patterns.any fun p => p description

/-- RevenueClassifier._is_true_revenue. -/
def is_true_revenue (store : PatternStore) (description : String) : Bool :=
  store.true_revenue_patterns.any fun p => p description

/-- RevenueClassifier._is_non_true_revenue. -/
def is_non_true_revenue (store : PatternStore) (description : String) : Bool :=
  store.non_true_revenue_patterns.any fun p => p description

/-- Steps 4 to 9 of RevenueClassifier.classify: the part of the cascade
after the wire check (P2P, treasury true, treasury false, general non-true
revenue, general true revenue, default). -/
def classify_rest (store : PatternStore) (classified : ClassifiedTransaction)
    (desc : String) : ClassifiedTransaction :=
  if is_p2p store desc then
    { classified with revenue_type := RevenueType.needs_review,
                      flags := classified.flags ++ ["P2P_REVIEW_REQUIRED"] }
  else if is_treasury_true store desc then
    { classified with revenue_type := RevenueType.true_revenue,
                      flags := classified.flags ++ ["TREASURY_PAYMENT"] }
  else if is_treasury_false store desc then
    { classified with revenue_type := RevenueType.non_true_revenue,
                      flags := classified.flags ++ ["TREASURY_FALSE_POSITIVE"] }
  else if is_non_true_revenue store desc then
    { classified with revenue_type := RevenueType.non_true_revenue }
  else if is_true_revenue store desc then
    { classified with revenue_type := RevenueType.true_revenue }
  else
    { classified with revenue_type := RevenueType.needs_review }

/-- RevenueClassifier.classify.  The amount gate, the MCA lookup guarded by
Python truthiness of Optional[str], the wire check (whose re.search can
raise on a malformed wire pattern, hence the Except), then the rest of the
cascade. -/
def classify (compile : String → Option Matcher) (store : PatternStore)
    (transaction : Transaction) : Except LoadError ClassifiedTransaction :=
  let classified : ClassifiedTransaction := { toTransaction := transaction }
  let desc := strUpper transaction.description
  if transaction.amount ≤ 0 then
    Except.ok { classified with revenue_type := RevenueType.non_true_revenue }
  else
    let mca_match := lookup_mca store desc
    if optStrTruthy mca_match then
      Except.ok { classified with mca_match := mca_match }
    else
      match classify_wire compile store desc with
      | Except.error e => Except.error e
      | Except.ok none => Except.ok (classify_rest store classified desc)
      | Except.ok (some wire_type) =>
        let classified := { classified with wire_type := some wire_type }
        if wire_type = WireType.foreign_remittance then
          Except.ok { classified with
                        revenue_type := RevenueType.non_true_revenue,
                        flags := classified.flags ++ ["FOREIGN_WIRE_NOT_REVENUE"] }
        else
          Except.ok (classify_rest store classified desc)

/-- RevenueClassifier.classify_all: the list comprehension over classify;
an exception raised on any element aborts the whole call. -/
def classify_all (compile : String → Option Matcher) (store : PatternStore) :
    List Transaction → Except LoadError (List ClassifiedTransaction)
  | [] => Except.ok []
  | t :: ts =>
    match classify compile store t with
    | Except.error e => Except.error e
    | Except.ok c =>
      match classify_all compile store ts with
      | Except.error e => Except.error e
      | Except.ok cs => Except.ok (c :: cs)

/-- The WireType constructor applied to a subtype-name string; none models
the ValueError raised on a name outside the enumeration. -/
def WireType.ofString : String → Option WireType
  | "wire_transfer" => some WireType.wire_transfer
  | "fed_wire" => some WireType.fed_wire
  | "chips_credit" => some WireType.chips_credit
  | "book_transfer" => some WireType.book_transfer
  | "foreign_remittance" => some WireType.foreign_remittance
  | "unknown" => some WireType.unknown
  | _ => none

/-- Python dict assignment d[key] = value on an association list: an
existing key keeps its position and gets the new value, a new key is
appended at the end. -/
def dictInsert {α : Type} (key : String) (value : α) :
    List (String × α) → List (String × α)
  | [] => [(key, value)]
  | (k, v) :: rest =>
    if k = key then (k, value) :: rest
    else (k, v) :: dictInsert key value rest

/-- The reverse-index construction of _load_patterns: for every lender and
every alias, aka_to_mca[aka.upper()] = mca_name. -/
def build_aka_to_mca (lenders : List (String × List String)) :
    List (String × String) :=
  lenders.foldl
    (fun acc p => p.2.foldl (fun acc2 aka => dictInsert (strUpper aka) p.1 acc2) acc)
    []

/-- The parsed configuration data _load_patterns consumes: the lender alias
dataset and the six named pattern datasets of revenue_patterns.json. -/
structure RawPatternConfig where
  lenders : List (String × List String)
  true_revenue_patterns : List String
  non_true_revenue_patterns : List String
  treasury_true_patterns : List String
  treasury_false_positive_patterns : List String
  zelle_venmo_patterns : List String
  wire_patterns : List (String × String)

/-- Compilation of a list of pattern strings, as done for the five revenue
rule lists in _load_patterns; the first malformed pattern raises re.error. -/
def compile_list (compile : String → Option Matcher) :
    List String → Except LoadError (List Matcher)
  | [] => Except.ok []
  | p :: ps =>
    match compile p with
    | none => Except.error (LoadError.regexError p)
    | some m =>
      match compile_list compile ps with
      | Except.error e => Except.error e
      | Except.ok ms => Except.ok (m :: ms)

/-- The wire-table loop of _load_patterns: each subtype name goes through
the WireType constructor (ValueError on an unknown name) and the raw,
uncompiled pattern string is stored. -/
def resolve_wire_table :
    List (String × String) → Except LoadError (List (String × WireType))
  | [] => Except.ok []
  | (pattern, name) :: rest =>
    match WireType.ofString name with
    | none => Except.error (LoadError.valueError name)
    | some wt =>
      match resolve_wire_table rest with
      | Except.error e => Except.error e
      | Except.ok table => Except.ok ((pattern, wt) :: table)

/-- RevenueClassifier._load_patterns on parsed configuration data: build
the alias reverse index, compile the five revenue rule lists, resolve the
wire table (validating only the subtype names, not the pattern strings). -/
def load_patterns (compile : String → Option Matcher) (cfg : RawPatternConfig) :
    Except LoadError PatternStore := do
  let aka_to_mca := build_aka_to_mca cfg.lenders
  let true_revenue_patterns ← compile_list compile cfg.true_revenue_patterns
  let non_true_revenue_patterns ← compile_list compile cfg.non_true_revenue_patterns
  let treasury_true_patterns ← compile_list compile cfg.treasury_true_patterns
  let treasury_false_patterns ← compile_list compile cfg.treasury_false_positive_patterns
  let p2p_patterns ← compile_list compile cfg.zelle_venmo_patterns
  let wire_patterns ← resolve_wire_table cfg.wire_patterns
  Except.ok { aka_to_mca, true_revenue_patterns, non_true_revenue_patterns,
              treasury_true_patterns, treasury_false_patterns, p2p_patterns,
              wire_patterns }

/-! Concrete fixtures used by the witnesses and counterexamples. -/

/-- Match predicate of a compiled literal-text pattern: a regular
expression without metacharacters matches exactly where its text occurs in
the searched string. -/
def matcherFor (needle : String) : Matcher :=
  fun description => strContains description needle

/-- Concrete stand-in for re.compile used by the witnesses: the single
pattern string ( is malformed (re.error, unbalanced parenthesis), every
other pattern string used by the fixtures is literal text. -/
def compileSub : String → Option Matcher :=
  fun pattern => if pattern = "(" then none else some (matcherFor pattern)

/-- A populated pattern store exercising every rule family. -/
def storeFull : PatternStore :=
  { aka_to_mca := [("ABC CAPITAL", "ABC Capital Partners")],
    true_revenue_patterns := [matcherFor "DEPOSIT"],
    non_true_revenue_patterns := [matcherFor "TRANSFER"],
    treasury_true_patterns := [matcherFor "TREAS 310"],
    treasury_false_patterns := [matcherFor "TREAS"],
    p2p_patterns := [matcherFor "ZELLE"],
    wire_patterns := [("WIRE", WireType.wire_transfer),
                      ("FOREIGN", WireType.foreign_remittance)] }

/-- A store whose single lender has the empty string as canonical name. -/
def storeEmptyName : PatternStore :=
  { aka_to_mca := [("X", "")],
    true_revenue_patterns := [],
    non_true_revenue_patterns := [],
    treasury_true_patterns := [],
    treasury_false_patterns := [],
    p2p_patterns := [],
    wire_patterns := [] }

/-- Configuration whose wire table carries a malformed pattern string but
whose subtype names and remaining pattern lists are all valid. -/
def cfgBad : RawPatternConfig :=
  { lenders := [("ABC Capital Partners", ["ABC Capital"])],
    true_revenue_patterns := ["DEPOSIT"],
    non_true_revenue_patterns := ["TRANSFER"],
    treasury_true_patterns := ["TREAS 310"],
    treasury_false_positive_patterns := ["TREAS"],
    zelle_venmo_patterns := ["ZELLE"],
    wire_patterns := [("(", "wire_transfer")] }

/-- A withdrawal whose description matches MCA, P2P, general and revenue
patterns of storeFull. -/
def tNeg : Transaction :=
  { date := 0, description := "ZELLE TRANSFER DEPOSIT", amount := -500 }

/-- A deposit whose description contains the configured lender alias. -/
def tMca : Transaction :=
  { date := 0, description := "ABC Capital Funding LLC Daily Payment", amount := 500 }

/-- A deposit matching the foreign-remittance wire pattern as first wire
match, and also P2P, treasury and general patterns. -/
def tForeign : Transaction :=
  { date := 0, description := "FOREIGN ZELLE TREAS 310 TRANSFER DEPOSIT", amount := 1000 }

/-- A deposit matching the wire_transfer wire pattern and a P2P pattern. -/
def tWire : Transaction :=
  { date := 0, description := "WIRE ZELLE PAYMENT", amount := 100 }

/-- A P2P-matching withdrawal. -/
def tP2pNeg : Transaction :=
  { date := 0, description := "ZELLE PAYMENT FROM JOHN DOE", amount := -250 }

/-- A P2P-matching deposit. -/
def tP2pPos : Transaction :=
  { date := 0, description := "ZELLE PAYMENT FROM JOHN DOE", amount := 250 }

/-- A deposit matching both treasury lists and both general lists. -/
def tTreas : Transaction :=
  { date := 0, description := "TREAS 310 TRANSFER DEPOSIT", amount := 100 }

/-- A deposit matching only the general true-revenue pattern. -/
def tPos : Transaction :=
  { date := 0, description := "ANY DEPOSIT", amount := 100 }

/-- The single-element transaction list for the batch witness. -/
def tsBatch : List Transaction := [tPos]

/-- A deposit whose description contains the alias of the empty-named
lender of storeEmptyName. -/
def tAliasX : Transaction :=
  { date := 0, description := "PAY X LLC", amount := 1 }

/-- The classification the code produces for tPos over storeFull. -/
def cPos : ClassifiedTransaction :=
  { toTransaction := tPos, revenue_type := RevenueType.true_revenue }

/-- The classification the code produces for tWire over storeFull. -/
def cWire : ClassifiedTransaction :=
  { toTransaction := tWire, revenue_type := RevenueType.needs_review,
    wire_type := some WireType.wire_transfer,
    flags := ["P2P_REVIEW_REQUIRED"] }

end TransactionClassifier

namespace TransactionClassifier

/-! Helper lemmas. -/

/-- Packing a valid codepoint and reading it back is the identity. -/
theorem toNat_ofNat_of_valid {n : Nat} (h : n.isValidChar) :
    (Char.ofNat n).toNat = n := by
  rw [Char.ofNat, dif_pos h]
  rfl

/-- Uppercasing a character twice is the same as uppercasing it once. -/
theorem char_toUpper_idem (c : Char) : c.toUpper.toUpper = c.toUpper := by
  simp only [Char.toUpper]
  by_cases h : c.toNat ≥ 97 ∧ c.toNat ≤ 122
  · rw [if_pos h]
    have hv : Nat.isValidChar (c.toNat - 32) := Or.inl (by omega)
    have hg : ¬((Char.ofNat (c.toNat - 32)).toNat ≥ 97 ∧
        (Char.ofNat (c.toNat - 32)).toNat ≤ 122) := by
      rw [toNat_ofNat_of_valid hv]
      omega
    rw [if_neg hg]
  · rw [if_neg h, if_neg h]

/-- Uppercasing a string twice is the same as uppercasing it once. -/
theorem strUpper_idem (s : String) : strUpper (strUpper s) = strUpper s := by
  simp only [strUpper, List.map_map]
  congr 1
  simp only [Function.comp_def, char_toUpper_idem]

/-- The cascade tail never changes the wire type it is given. -/
theorem classify_rest_wire_eq (store : PatternStore)
    (cl : ClassifiedTransaction) (desc : String) :
    (classify_rest store cl desc).wire_type = cl.wire_type := by
  unfold classify_rest
  split_ifs <;> rfl

/-- The cascade tail never changes the MCA match it is given. -/
theorem classify_rest_mca_eq (store : PatternStore)
    (cl : ClassifiedTransaction) (desc : String) :
    (classify_rest store cl desc).mca_match = cl.mca_match := by
  unfold classify_rest
  split_ifs <;> rfl

/-- The revenue type and the flags produced by the cascade tail do not
depend on the accumulated record beyond its flags. -/
theorem classify_rest_rev_flags (store : PatternStore) (desc : String)
    (c₁ c₂ : ClassifiedTransaction) (hf : c₁.flags = c₂.flags) :
    (classify_rest store c₁ desc).revenue_type
        = (classify_rest store c₂ desc).revenue_type ∧
      (classify_rest store c₁ desc).flags = (classify_rest store c₂ desc).flags := by
  unfold classify_rest
  split_ifs <;> simp [hf]

/-- Emptying the wire table does not affect the cascade tail. -/
theorem classify_rest_erase_wire (store : PatternStore)
    (cl : ClassifiedTransaction) (desc : String) :
    classify_rest { store with wire_patterns := [] } cl desc
      = classify_rest store cl desc := rfl

/-- The cascade tail only ever produces the three terminal revenue types. -/
theorem classify_rest_revenue_cases (store : PatternStore)
    (cl : ClassifiedTransaction) (desc : String) :
    (classify_rest store cl desc).revenue_type = RevenueType.true_revenue ∨
      (classify_rest store cl desc).revenue_type = RevenueType.non_true_revenue ∨
      (classify_rest store cl desc).revenue_type = RevenueType.needs_review := by
  unfold classify_rest
  split_ifs <;> simp

/-- The cascade tail appends at most one flag, drawn from the three flags
it can raise. -/
theorem classify_rest_flags_cases (store : PatternStore)
    (cl : ClassifiedTransaction) (desc : String) :
    (classify_rest store cl desc).flags = cl.flags ∨
      ∃ f, (classify_rest store cl desc).flags = cl.flags ++ [f] ∧
        (f = "P2P_REVIEW_REQUIRED" ∨ f = "TREASURY_PAYMENT" ∨
          f = "TREASURY_FALSE_POSITIVE") := by
  unfold classify_rest
  split_ifs with h1 h2 h3 h4 h5
  · exact Or.inr ⟨"P2P_REVIEW_REQUIRED", rfl, Or.inl rfl⟩
  · exact Or.inr ⟨"TREASURY_PAYMENT", rfl, Or.inr (Or.inl rfl)⟩
  · exact Or.inr ⟨"TREASURY_FALSE_POSITIVE", rfl, Or.inr (Or.inr rfl)⟩
  · exact Or.inl rfl
  · exact Or.inl rfl
  · exact Or.inl rfl

/-! Claim theorems. -/

/-- C1: for every transaction with amount at most zero, classify returns
non_true_revenue immediately, with no MCA match, no wire type and no
flags, whatever the description and the configured patterns. -/
theorem amount_gate_short_circuit
    (compile : String → Option Matcher) (store : PatternStore)
    (t : Transaction) (h : t.amount ≤ 0) :
    classify compile store t =
      Except.ok { toTransaction := t,
                  revenue_type := RevenueType.non_true_revenue,
                  mca_match := none, wire_type := none, flags := [] } := by
  simp [classify, h]

/-- Witness for C1: the amount gate at a concrete withdrawal whose
description matches MCA, P2P, general and wire patterns of the store. -/
theorem amount_gate_short_circuit_w :
    tNeg.amount ≤ 0 ∧
      classify compileSub storeFull tNeg =
        Except.ok { toTransaction := tNeg,
                    revenue_type := RevenueType.non_true_revenue,
                    mca_match := none, wire_type := none, flags := [] } :=
  ⟨by decide, amount_gate_short_circuit compileSub storeFull tNeg (by decide)⟩

/-- C2 as stated is false on the code: when the configured canonical lender
name is the empty string, the description contains its alias and the amount
is positive, yet classify leaves mca_match absent and falls through the
cascade, because the guard tests Python truthiness of the looked-up name
and the empty string is falsy. -/
theorem mca_empty_name_cex :
    0 < tAliasX.amount ∧
      ("X", "") ∈ storeEmptyName.aka_to_mca ∧
      strContains (strUpper tAliasX.description) (strUpper "X") = true ∧
      classify compileSub storeEmptyName tAliasX =
        Except.ok { toTransaction := tAliasX,
                    revenue_type := RevenueType.needs_review,
                    mca_match := none, wire_type := none, flags := [] } :=
  ⟨by decide, by decide, by decide, rfl⟩

/-- C2 amended: for every transaction with amount > 0 for which the alias
scan finds a match — the canonical name c of the first entry of the reverse
index whose alias occurs in the uppercased description — and c is nonempty,
classify sets mca_match to c and returns immediately with revenue_type left
at its default needs_review, no wire type and no flags; an empty canonical
name would instead be discarded by the truthiness guard. -/
theorem mca_short_circuit
    (compile : String → Option Matcher) (store : PatternStore)
    (t : Transaction) (c : String)
    (hamt : 0 < t.amount)
    (hc : lookup_mca store (strUpper t.description) = some c)
    (hne : c ≠ "") :
    (∃ p ∈ store.aka_to_mca,
        strContains (strUpper t.description) p.1 = true ∧ p.2 = c) ∧
      classify compile store t =
        Except.ok { toTransaction := t,
                    revenue_type := RevenueType.needs_review,
                    mca_match := some c, wire_type := none, flags := [] } := by
  constructor
  · have hc' := hc
    simp only [lookup_mca] at hc'
    obtain ⟨p, hp, hfp⟩ := List.exists_of_findSome?_eq_some hc'
    by_cases hcond : strContains (strUpper (strUpper t.description)) p.1 = true
    · rw [if_pos hcond] at hfp
      injection hfp with hfp
      exact ⟨p, hp, by rw [← strUpper_idem]; exact hcond, hfp⟩
    · rw [if_neg hcond] at hfp
      exact Option.noConfusion hfp
  · have hIsEmp : c.isEmpty = false := by
      cases hEmp : c.isEmpty
      · rfl
      · exact absurd ((String.isEmpty_iff c).mp hEmp) hne
    have htru : optStrTruthy (some c) = true := by
      simp [optStrTruthy, hIsEmp]
    have hle : ¬ t.amount ≤ 0 := not_le.mpr hamt
    simp [classify, hle, hc, htru]

/-- Witness for C2 amended: the concrete lender alias lookup fires and
short-circuits classification at a positive-amount transaction. -/
theorem mca_short_circuit_w :
    0 < tMca.amount ∧
      lookup_mca storeFull (strUpper tMca.description) = some "ABC Capital Partners" ∧
      "ABC Capital Partners" ≠ "" ∧
      ((∃ p ∈ storeFull.aka_to_mca,
          strContains (strUpper tMca.description) p.1 = true ∧
            p.2 = "ABC Capital Partners") ∧
        classify compileSub storeFull tMca =
          Except.ok { toTransaction := tMca,
                      revenue_type := RevenueType.needs_review,
                      mca_match := some "ABC Capital Partners",
                      wire_type := none, flags := [] }) :=
  ⟨by decide, by decide, by decide,
    mca_short_circuit compileSub storeFull tMca "ABC Capital Partners"
      (by decide) (by decide) (by decide)⟩

/-- C3: contrary to the spec, wire pattern strings are never validated at
construction time — _load_patterns passes only the subtype name through the
WireType constructor and stores the raw pattern — so a malformed wire
pattern is accepted at construction and the deferred re.search then raises
re.error during classify.  Moreover no dedicated configuration-error class
exists in the code: construction failures surface as re.error or
ValueError. -/
theorem wire_pattern_validated_late :
    ∃ store, load_patterns compileSub cfgBad = Except.ok store ∧
      classify compileSub store tPos = Except.error (LoadError.regexError "(") :=
  ⟨_, rfl, rfl⟩

/-- C4: with a positive amount and no truthy lender match, if the wire scan
(first matching pattern in table order) resolves to foreign_remittance then
classify terminates immediately as non_true_revenue, with wire_type
foreign_remittance and exactly the single flag FOREIGN_WIRE_NOT_REVENUE,
whatever P2P, treasury or general patterns the description also matches. -/
theorem foreign_wire_short_circuit
    (compile : String → Option Matcher) (store : PatternStore)
    (t : Transaction)
    (hamt : 0 < t.amount)
    (hmca : optStrTruthy (lookup_mca store (strUpper t.description)) = false)
    (hwire : classify_wire compile store (strUpper t.description)
        = Except.ok (some WireType.foreign_remittance)) :
    classify compile store t =
      Except.ok { toTransaction := t,
                  revenue_type := RevenueType.non_true_revenue,
                  mca_match := none,
                  wire_type := some WireType.foreign_remittance,
                  flags := ["FOREIGN_WIRE_NOT_REVENUE"] } := by
  have hle : ¬ t.amount ≤ 0 := not_le.mpr hamt
  simp [classify, hle, hmca, hwire]

/-- Witness for C4: a concrete deposit whose first matching wire pattern is
the foreign-remittance one while P2P, treasury and general patterns also
match its description. -/
theorem foreign_wire_short_circuit_w :
    0 < tForeign.amount ∧
      optStrTruthy (lookup_mca storeFull (strUpper tForeign.description)) = false ∧
      classify_wire compileSub storeFull (strUpper tForeign.description)
          = Except.ok (some WireType.foreign_remittance) ∧
      classify compileSub storeFull tForeign =
        Except.ok { toTransaction := tForeign,
                    revenue_type := RevenueType.non_true_revenue,
                    mca_match := none,
                    wire_type := some WireType.foreign_remittance,
                    flags := ["FOREIGN_WIRE_NOT_REVENUE"] } :=
  ⟨by decide, by decide, rfl,
    foreign_wire_short_circuit compileSub storeFull tForeign
      (by decide) (by decide) rfl⟩

/-- C5: with a positive amount and no truthy lender match, a first wire
match other than foreign_remittance is recorded in wire_type but does not
terminate the cascade: revenue_type and flags come out exactly as in the
run over the same store with an empty wire table, in which no wire pattern
matches. -/
theorem wire_subtype_records_and_continues
    (compile : String → Option Matcher) (store : PatternStore)
    (t : Transaction) (wt : WireType)
    (hamt : 0 < t.amount)
    (hmca : optStrTruthy (lookup_mca store (strUpper t.description)) = false)
    (hwire : classify_wire compile store (strUpper t.description)
        = Except.ok (some wt))
    (hfr : wt ≠ WireType.foreign_remittance) :
    ∃ c nc,
      classify compile store t = Except.ok c ∧
      classify compile { store with wire_patterns := [] } t = Except.ok nc ∧
      c.wire_type = some wt ∧
      nc.wire_type = none ∧
      c.revenue_type = nc.revenue_type ∧
      c.flags = nc.flags := by
  have hle : ¬ t.amount ≤ 0 := not_le.mpr hamt
  refine ⟨classify_rest store
            { toTransaction := t, wire_type := some wt } (strUpper t.description),
          classify_rest store { toTransaction := t } (strUpper t.description),
          ?_, ?_, ?_, ?_, ?_, ?_⟩
  · simp [classify, hle, hmca, hwire, hfr]
  · have hmca' : optStrTruthy
        (lookup_mca { store with wire_patterns := [] } (strUpper t.description))
          = false := hmca
    have hw' : classify_wire compile { store with wire_patterns := [] }
        (strUpper t.description) = Except.ok none := rfl
    simp [classify, hle, hmca', hw', classify_rest_erase_wire]
  · rw [classify_rest_wire_eq]
  · rw [classify_rest_wire_eq]
  · exact (classify_rest_rev_flags store (strUpper t.description)
      { toTransaction := t, wire_type := some wt } { toTransaction := t } rfl).1
  · exact (classify_rest_rev_flags store (strUpper t.description)
      { toTransaction := t, wire_type := some wt } { toTransaction := t } rfl).2

/-- Witness for C5: a deposit matching the wire_transfer pattern first and
a P2P pattern afterwards; the run with the wire table emptied yields the
same revenue type and flags. -/
theorem wire_subtype_records_and_continues_w :
    0 < tWire.amount ∧
      optStrTruthy (lookup_mca storeFull (strUpper tWire.description)) = false ∧
      classify_wire compileSub storeFull (strUpper tWire.description)
          = Except.ok (some WireType.wire_transfer) ∧
      WireType.wire_transfer ≠ WireType.foreign_remittance ∧
      (∃ c nc,
        classify compileSub storeFull tWire = Except.ok c ∧
        classify compileSub { storeFull with wire_patterns := [] } tWire
            = Except.ok nc ∧
        c.wire_type = some WireType.wire_transfer ∧
        nc.wire_type = none ∧
        c.revenue_type = nc.revenue_type ∧
        c.flags = nc.flags) :=
  ⟨by decide, by decide, rfl, by decide,
    wire_subtype_records_and_continues compileSub storeFull tWire
      WireType.wire_transfer (by decide) (by decide) rfl (by decide)⟩

/-- C6 as stated is false on the code: a withdrawal (amount at most zero)
whose description matches a P2P pattern, no lender alias and no wire
pattern is classified non_true_revenue with no flags by the amount gate,
not needs_review with P2P_REVIEW_REQUIRED — the spec sentence omits the
amount-sign restriction. -/
theorem p2p_amount_gate_cex :
    is_p2p storeFull (strUpper tP2pNeg.description) = true ∧
      lookup_mca storeFull (strUpper tP2pNeg.description) = none ∧
      classify_wire compileSub storeFull (strUpper tP2pNeg.description)
          = Except.ok none ∧
      classify compileSub storeFull tP2pNeg =
        Except.ok { toTransaction := tP2pNeg,
                    revenue_type := RevenueType.non_true_revenue,
                    mca_match := none, wire_type := none, flags := [] } :=
  ⟨by decide, by decide, rfl, rfl⟩

/-- C6 amended: for every transaction with amount > 0 matching a P2P
pattern but with no truthy lender match and a wire scan not resolving to
foreign_remittance, classify returns needs_review with exactly the flag
P2P_REVIEW_REQUIRED. -/
theorem p2p_review_required
    (compile : String → Option Matcher) (store : PatternStore)
    (t : Transaction) (owt : Option WireType)
    (hamt : 0 < t.amount)
    (hmca : optStrTruthy (lookup_mca store (strUpper t.description)) = false)
    (hwire : classify_wire compile store (strUpper t.description) = Except.ok owt)
    (hofr : owt ≠ some WireType.foreign_remittance)
    (hp2p : is_p2p store (strUpper t.description) = true) :
    classify compile store t =
      Except.ok { toTransaction := t,
                  revenue_type := RevenueType.needs_review,
                  mca_match := none, wire_type := owt,
                  flags := ["P2P_REVIEW_REQUIRED"] } := by
  have hle : ¬ t.amount ≤ 0 := not_le.mpr hamt
  cases owt with
  | none => simp [classify, hle, hmca, hwire, classify_rest, hp2p]
  | some wt =>
    have hfr : wt ≠ WireType.foreign_remittance := by
      intro hh
      exact hofr (by rw [hh])
    simp [classify, hle, hmca, hwire, hfr, classify_rest, hp2p]

/-- Witness for C6 amended: the positive-amount variant of the P2P
scenario is flagged for review. -/
theorem p2p_review_required_w :
    0 < tP2pPos.amount ∧
      optStrTruthy (lookup_mca storeFull (strUpper tP2pPos.description)) = false ∧
      classify_wire compileSub storeFull (strUpper tP2pPos.description)
          = Except.ok none ∧
      (none ≠ some WireType.foreign_remittance) ∧
      is_p2p storeFull (strUpper tP2pPos.description) = true ∧
      classify compileSub storeFull tP2pPos =
        Except.ok { toTransaction := tP2pPos,
                    revenue_type := RevenueType.needs_review,
                    mca_match := none, wire_type := none,
                    flags := ["P2P_REVIEW_REQUIRED"] } :=
  ⟨by decide, by decide, rfl, by decide, by decide,
    p2p_review_required compileSub storeFull tP2pPos none
      (by decide) (by decide) rfl (by decide) (by decide)⟩

/-- C7: with a positive amount and the lender, foreign-wire and P2P rules
not firing, a treasury-true match terminates as true_revenue with exactly
the flag TREASURY_PAYMENT no matter what else matches; treasury-false is
consulted only once treasury-true fails, yielding non_true_revenue with
TREASURY_FALSE_POSITIVE; and the general non-true-revenue set is consulted
before the general true-revenue set, yielding unflagged non_true_revenue
no matter what the true-revenue set would say. -/
theorem treasury_precedence
    (compile : String → Option Matcher) (store : PatternStore)
    (t : Transaction) (owt : Option WireType)
    (hamt : 0 < t.amount)
    (hmca : optStrTruthy (lookup_mca store (strUpper t.description)) = false)
    (hwire : classify_wire compile store (strUpper t.description) = Except.ok owt)
    (hofr : owt ≠ some WireType.foreign_remittance)
    (hp2p : is_p2p store (strUpper t.description) = false) :
    (is_treasury_true store (strUpper t.description) = true →
        classify compile store t =
          Except.ok { toTransaction := t,
                      revenue_type := RevenueType.true_revenue,
                      mca_match := none, wire_type := owt,
                      flags := ["TREASURY_PAYMENT"] }) ∧
      (is_treasury_true store (strUpper t.description) = false →
        is_treasury_false store (strUpper t.description) = true →
        classify compile store t =
          Except.ok { toTransaction := t,
                      revenue_type := RevenueType.non_true_revenue,
                      mca_match := none, wire_type := owt,
                      flags := ["TREASURY_FALSE_POSITIVE"] }) ∧
      (is_treasury_true store (strUpper t.description) = false →
        is_treasury_false store (strUpper t.description) = false →
        is_non_true_revenue store (strUpper t.description) = true →
        classify compile store t =
          Except.ok { toTransaction := t,
                      revenue_type := RevenueType.non_true_revenue,
                      mca_match := none, wire_type := owt, flags := [] }) := by
  have hle : ¬ t.amount ≤ 0 := not_le.mpr hamt
  cases owt with
  | none =>
    refine ⟨fun h1 => ?_, fun h1 h2 => ?_, fun h1 h2 h3 => ?_⟩
    · simp [classify, hle, hmca, hwire, classify_rest, hp2p, h1]
    · simp [classify, hle, hmca, hwire, classify_rest, hp2p, h1, h2]
    · simp [classify, hle, hmca, hwire, classify_rest, hp2p, h1, h2, h3]
  | some wt =>
    have hfr : wt ≠ WireType.foreign_remittance := by
      intro hh
      exact hofr (by rw [hh])
    refine ⟨fun h1 => ?_, fun h1 h2 => ?_, fun h1 h2 h3 => ?_⟩
    · simp [classify, hle, hmca, hwire, hfr, classify_rest, hp2p, h1]
    · simp [classify, hle, hmca, hwire, hfr, classify_rest, hp2p, h1, h2]
    · simp [classify, hle, hmca, hwire, hfr, classify_rest, hp2p, h1, h2, h3]

/-- Witness for C7: a deposit matching both treasury lists and both
general lists at once is classified by the treasury-true rule alone. -/
theorem treasury_precedence_w :
    0 < tTreas.amount ∧
      optStrTruthy (lookup_mca storeFull (strUpper tTreas.description)) = false ∧
      classify_wire compileSub storeFull (strUpper tTreas.description)
          = Except.ok none ∧
      (none ≠ some WireType.foreign_remittance) ∧
      is_p2p storeFull (strUpper tTreas.description) = false ∧
      is_treasury_true storeFull (strUpper tTreas.description) = true ∧
      is_treasury_false storeFull (strUpper tTreas.description) = true ∧
      is_non_true_revenue storeFull (strUpper tTreas.description) = true ∧
      is_true_revenue storeFull (strUpper tTreas.description) = true ∧
      classify compileSub storeFull tTreas =
        Except.ok { toTransaction := tTreas,
                    revenue_type := RevenueType.true_revenue,
                    mca_match := none, wire_type := none,
                    flags := ["TREASURY_PAYMENT"] } :=
  ⟨by decide, by decide, rfl, by decide, by decide, by decide, by decide,
    by decide, by decide,
    (treasury_precedence compileSub storeFull tTreas none
        (by decide) (by decide) rfl (by decide) (by decide)).1 (by decide)⟩

/-- C8: whenever the batch classification returns normally, it returns a
list of the same length as its input whose i-th element is the
classification of the i-th input transaction. -/
theorem classify_all_positional
    (compile : String → Option Matcher) (store : PatternStore)
    (ts : List Transaction) (rs : List ClassifiedTransaction)
    (h : classify_all compile store ts = Except.ok rs) :
    rs.length = ts.length ∧
      ∀ i, (hi : i < ts.length) → (hr : i < rs.length) →
        classify compile store ts[i] = Except.ok rs[i] := by
  induction ts generalizing rs with
  | nil =>
    simp only [classify_all] at h
    injection h with h
    subst h
    refine ⟨rfl, ?_⟩
    intro i hi hr
    exact absurd hi (Nat.not_lt_zero i)
  | cons t ts ih =>
    simp only [classify_all] at h
    cases hc : classify compile store t with
    | error e =>
      simp only [hc] at h
      exact Except.noConfusion h
    | ok c =>
      simp only [hc] at h
      cases hrec : classify_all compile store ts with
      | error e =>
        simp only [hrec] at h
        exact Except.noConfusion h
      | ok cs =>
        simp only [hrec] at h
        injection h with h
        subst h
        obtain ⟨hlen, hidx⟩ := ih cs hrec
        refine ⟨by simp [hlen], ?_⟩
        intro i hi hr
        cases i with
        | zero => simpa using hc
        | succ n =>
          have hn : n < ts.length := by simpa using hi
          have hrn : n < cs.length := by simpa using hr
          simpa using hidx n hn hrn

/-- Witness for C8: the batch run over a one-element list returns the
one-element list of the element's classification. -/
theorem classify_all_positional_w :
    classify_all compileSub storeFull tsBatch = Except.ok [cPos] ∧
      (([cPos] : List ClassifiedTransaction).length = tsBatch.length ∧
        ∀ i, (hi : i < tsBatch.length) →
          (hr : i < ([cPos] : List ClassifiedTransaction).length) →
          classify compileSub storeFull tsBatch[i]
            = Except.ok ([cPos] : List ClassifiedTransaction)[i]) :=
  ⟨rfl, classify_all_positional compileSub storeFull tsBatch [cPos] rfl⟩

/-- C9: whatever the configuration and the transaction, a normally
returned classification carries one of the three revenue types
true_revenue, non_true_revenue or needs_review — the enumeration values
outlier and mca_payment are unreachable. -/
theorem revenue_type_range
    (compile : String → Option Matcher) (store : PatternStore)
    (t : Transaction) (c : ClassifiedTransaction)
    (h : classify compile store t = Except.ok c) :
    (c.revenue_type = RevenueType.true_revenue ∨
        c.revenue_type = RevenueType.non_true_revenue ∨
        c.revenue_type = RevenueType.needs_review) ∧
      c.revenue_type ≠ RevenueType.outlier ∧
      c.revenue_type ≠ RevenueType.mca_payment := by
  have hmain : c.revenue_type = RevenueType.true_revenue ∨
      c.revenue_type = RevenueType.non_true_revenue ∨
      c.revenue_type = RevenueType.needs_review := by
    simp only [classify] at h
    split at h
    · injection h with h
      subst h
      simp
    · split at h
      · injection h with h
        subst h
        simp
      · split at h
        · exact Except.noConfusion h
        · injection h with h
          subst h
          exact classify_rest_revenue_cases store _ (strUpper t.description)
        · split at h
          · injection h with h
            subst h
            simp
          · injection h with h
            subst h
            exact classify_rest_revenue_cases store _ (strUpper t.description)
  refine ⟨hmain, ?_, ?_⟩ <;>
    rcases hmain with h1 | h1 | h1 <;> simp [h1]

/-- Witness for C9: the classification of a concrete deposit has one of
the three reachable revenue types. -/
theorem revenue_type_range_w :
    classify compileSub storeFull tPos = Except.ok cPos ∧
      ((cPos.revenue_type = RevenueType.true_revenue ∨
          cPos.revenue_type = RevenueType.non_true_revenue ∨
          cPos.revenue_type = RevenueType.needs_review) ∧
        cPos.revenue_type ≠ RevenueType.outlier ∧
        cPos.revenue_type ≠ RevenueType.mca_payment) :=
  ⟨rfl, revenue_type_range compileSub storeFull tPos cPos rfl⟩

/-- C10: whatever the configuration and the transaction, a normally
returned classification carries at most one flag, and a flag can only be
one of the four advisory tags of the cascade. -/
theorem flags_at_most_one
    (compile : String → Option Matcher) (store : PatternStore)
    (t : Transaction) (c : ClassifiedTransaction)
    (h : classify compile store t = Except.ok c) :
    c.flags = [] ∨
      ∃ f, c.flags = [f] ∧
        (f = "FOREIGN_WIRE_NOT_REVENUE" ∨ f = "P2P_REVIEW_REQUIRED" ∨
          f = "TREASURY_PAYMENT" ∨ f = "TREASURY_FALSE_POSITIVE") := by
  simp only [classify] at h
  split at h
  · injection h with h
    subst h
    exact Or.inl rfl
  · split at h
    · injection h with h
      subst h
      exact Or.inl rfl
    · split at h
      · exact Except.noConfusion h
      · injection h with h
        subst h
        rcases classify_rest_flags_cases store _ (strUpper t.description)
          with h0 | ⟨f, hf, hm⟩
        · exact Or.inl (by simpa using h0)
        · exact Or.inr ⟨f, by simpa using hf, Or.inr hm⟩
      · split at h
        · injection h with h
          subst h
          exact Or.inr ⟨"FOREIGN_WIRE_NOT_REVENUE", by simp, Or.inl rfl⟩
        · injection h with h
          subst h
          rcases classify_rest_flags_cases store _ (strUpper t.description)
            with h0 | ⟨f, hf, hm⟩
          · exact Or.inl (by simpa using h0)
          · exact Or.inr ⟨f, by simpa using hf, Or.inr hm⟩

/-- Witness for C10: a concrete classification that carries exactly one
flag, drawn from the advisory tags. -/
theorem flags_at_most_one_w :
    classify compileSub storeFull tWire = Except.ok cWire ∧
      (cWire.flags = [] ∨
        ∃ f, cWire.flags = [f] ∧
          (f = "FOREIGN_WIRE_NOT_REVENUE" ∨ f = "P2P_REVIEW_REQUIRED" ∨
            f = "TREASURY_PAYMENT" ∨ f = "TREASURY_FALSE_POSITIVE")) :=
  ⟨rfl, flags_at_most_one compileSub storeFull tWire cWire rfl⟩

end TransactionClassifier
